import Mathlib

/-!
Shallow embedding of the TurnBack benchmark code
(`src/turnback/dataset.py`, `src/turnback/models.py`,
`src/turnback/evaluation.py`).

Numeric values are modelled as exact rationals (`ℚ`); every numeric
literal of the Python source is an exact decimal, so rational
arithmetic reproduces the values the spec states.  `round(x, 3)` is
modelled as rounding `x·1000` to the nearest integer; the two sources
of rounding-mode disagreement with Python (ties) do not arise at any
value computed by this code.  Fallible operations (list indexing)
return `Option`.  Dictionaries keyed by strings are modelled as
association lists in insertion order.
-/

namespace Turnback

/-- Values stored in the `metadata` dictionaries of the repository;
the code only ever stores booleans (`{"sample": True}`). -/
inductive MetaVal
  | bool (b : Bool)
deriving DecidableEq, Repr

/-- `RoutePoint` dataclass of `dataset.py`: a single point of a route. -/
structure RoutePoint where
  latitude : ℚ
  longitude : ℚ
  timestamp : Option String
  metadata : Option (List (String × MetaVal))
deriving DecidableEq, Repr

/-- `Route` dataclass of `dataset.py`: a complete route. -/
structure Route where
  route_id : String
  points : List RoutePoint
  start_point : RoutePoint
  end_point : RoutePoint
  difficulty : String
  region : String
  metadata : Option (List (String × MetaVal))
deriving DecidableEq, Repr

/-- `RouteDataset` of `dataset.py`: holds the list of routes. -/
structure RouteDataset where
  routes : List Route
deriving DecidableEq, Repr

/-- `RouteDataset.__len__`. -/
def RouteDataset.length (D : RouteDataset) : Nat := D.routes.length

/-- `RouteDataset.__getitem__`, i.e. `self.routes[idx]` with Python
list-indexing semantics: a negative index counts from the end; an
index outside `[-n, n)` raises `IndexError`, modelled as `none`. -/
def RouteDataset.getItem (D : RouteDataset) (idx : Int) : Option Route :=
  let n : Int := D.routes.length
  if 0 ≤ idx ∧ idx < n then D.routes.get? idx.toNat
  else if -n ≤ idx ∧ idx < 0 then D.routes.get? (idx + n).toNat
  else none

/-- `RouteDataset.filter_by_difficulty`: list comprehension keeping the
routes whose difficulty equals the argument. -/
def RouteDataset.filter_by_difficulty (D : RouteDataset) (difficulty : String) : RouteDataset :=
  ⟨D.routes.filter (fun route => route.difficulty == difficulty)⟩

/-- `RouteDataset.filter_by_region`: list comprehension keeping the
routes whose region equals the argument. -/
def RouteDataset.filter_by_region (D : RouteDataset) (region : String) : RouteDataset :=
  ⟨D.routes.filter (fun route => route.region == region)⟩

/-- The `filter_by_difficulty` method as a state transformer on the
receiver: the method body only reads `self.routes` (a list
comprehension) and assigns nothing, so the receiver after the call is
returned unchanged alongside the fresh result. -/
def RouteDataset.filter_by_difficulty_call (D : RouteDataset) (difficulty : String) :
    RouteDataset × RouteDataset :=
  (D.filter_by_difficulty difficulty, D)

/-- The `filter_by_region` method as a state transformer on the
receiver, as for `filter_by_difficulty_call`. -/
def RouteDataset.filter_by_region_call (D : RouteDataset) (region : String) :
    RouteDataset × RouteDataset :=
  (D.filter_by_region region, D)

/-- Result dictionary of `RouteDataset.get_statistics`. -/
structure Statistics where
  total_routes : Nat
  difficulty_distribution : List (String × Nat)
  region_distribution : List (String × Nat)
deriving DecidableEq, Repr

/-- `RouteDataset.get_statistics`: total count plus one
`value ↦ occurrence count` entry per distinct difficulty and region
present (`{diff: difficulties.count(diff) for diff in set(difficulties)}`;
the set is modelled as the deduplicated list, fixing an iteration
order Python leaves unspecified). -/
def RouteDataset.get_statistics (D : RouteDataset) : Statistics :=
  let difficulties := D.routes.map Route.difficulty
  let regions := D.routes.map Route.region
  { total_routes := D.routes.length
    difficulty_distribution := difficulties.dedup.map (fun diff => (diff, difficulties.count diff))
    region_distribution := regions.dedup.map (fun region => (region, regions.count region)) }

/-- Python `f"{i:03d}"`: decimal representation left-padded with zeros
to width 3. -/
def format03 (n : Nat) : String :=
  let s := toString n
  String.mk (List.replicate (3 - s.length) '0') ++ s

/-- `load_dataset` of `dataset.py`: ignores both arguments and builds
the ten sample routes. -/
def load_dataset (dataset_name : String) (data_path : Option String) : RouteDataset :=
  ⟨(List.range 10).map (fun (i : Nat) =>
    let start_point : RoutePoint :=
      { latitude := 40.7128 + (i : ℚ) * 0.01, longitude := -74.0060 + (i : ℚ) * 0.01
        timestamp := none, metadata := none }
    let end_point : RoutePoint :=
      { latitude := 40.7228 + (i : ℚ) * 0.01, longitude := -74.0160 + (i : ℚ) * 0.01
        timestamp := none, metadata := none }
    { route_id := "route_" ++ format03 i
      points := [start_point, end_point]
      start_point := start_point
      end_point := end_point
      difficulty := ["easy", "medium", "hard"].getD (i % 3) ""
      region := "New York"
      metadata := some [("sample", MetaVal.bool true)] })⟩

/-- Prediction dictionary returned by the `predict` methods of
`models.py`. -/
structure Prediction where
  predicted_route : String
  confidence : ℚ
  reasoning : String
  intermediate_points : List RoutePoint
deriving DecidableEq, Repr

/-- The concrete model classes of `models.py`: `LLMModel(model_name,
api_key, **kwargs)` and `HumanBaselineModel()`. -/
inductive Model
  | llm (model_name : String) (api_key : Option String)
  | human_baseline
deriving DecidableEq, Repr

/-- `self.model_name`: set by `BaseModel.__init__`; `HumanBaselineModel`
passes the fixed name `"human_baseline"`. -/
def Model.model_name : Model → String
  | .llm n _ => n
  | .human_baseline => "human_baseline"

/-- Dictionary produced by `RouteEvaluator._route_to_dict` and consumed
by `predict`; coordinate pairs are `(latitude, longitude)`. -/
structure RouteDict where
  route_id : String
  start_point : ℚ × ℚ
  end_point : ℚ × ℚ
  difficulty : String
  region : String
  points : List (ℚ × ℚ)
deriving DecidableEq, Repr

/-- `LLMModel.predict` / `HumanBaselineModel.predict`: both ignore the
input and return a constant dictionary. -/
def Model.predict : Model → RouteDict → Prediction
  | .llm _ _, _ =>
    { predicted_route := "Sample prediction"
      confidence := 0.85
      reasoning := "This is a placeholder reasoning"
      intermediate_points := [] }
  | .human_baseline, _ =>
    { predicted_route := "Human baseline prediction"
      confidence := 0.90
      reasoning := "Human expert analysis"
      intermediate_points := [] }

/-- Entry of the `by_difficulty` dictionary of `evaluation.py`. -/
structure DiffEntry where
  accuracy : ℚ
  count : Nat
deriving DecidableEq, Repr

/-- The `metrics` sub-dictionary assembled by `RouteEvaluator.evaluate`;
all five keys are always present. -/
structure Metrics where
  accuracy : ℚ
  spatial_accuracy : ℚ
  route_deviation : ℚ
  semantic_similarity : ℚ
  by_difficulty : List (String × DiffEntry)
deriving DecidableEq, Repr

/-- Result dictionary of `RouteEvaluator.evaluate`. -/
structure EvalResult where
  model_name : String
  dataset_size : Nat
  metrics : Metrics
  overall_score : ℚ
deriving DecidableEq, Repr

namespace RouteEvaluator

/-- `RouteEvaluator._route_to_dict`. -/
def route_to_dict (route : Route) : RouteDict :=
  { route_id := route.route_id
    start_point := (route.start_point.latitude, route.start_point.longitude)
    end_point := (route.end_point.latitude, route.end_point.longitude)
    difficulty := route.difficulty
    region := route.region
    points := route.points.map (fun p => (p.latitude, p.longitude)) }

/-- `RouteEvaluator._compute_accuracy`: placeholder constant. -/
def compute_accuracy (predictions : List Prediction) (ground_truths : List Route) : ℚ := 0.75

/-- `RouteEvaluator._compute_spatial_accuracy`: placeholder constant. -/
def compute_spatial_accuracy (predictions : List Prediction) (ground_truths : List Route) : ℚ :=
  0.68

/-- `RouteEvaluator._compute_route_deviation`: placeholder constant (km). -/
def compute_route_deviation (predictions : List Prediction) (ground_truths : List Route) : ℚ :=
  2.5

/-- `RouteEvaluator._compute_semantic_similarity`: placeholder constant. -/
def compute_semantic_similarity (predictions : List Prediction) (ground_truths : List Route) :
    ℚ :=
  0.72

/-- The list `difficulties = ["easy", "medium", "hard"]` of
`_compute_by_difficulty`. -/
def difficulties : List String := ["easy", "medium", "hard"]

/-- `RouteEvaluator._compute_by_difficulty`: for each difficulty level,
filter the dataset; a non-empty filtrate yields accuracy
`0.80 - 0.15·difficulties.index(difficulty)` with its count, an empty
one yields `{accuracy: 0.0, count: 0}`. -/
def compute_by_difficulty (model : Model) (dataset : RouteDataset)
    (predictions : List Prediction) (ground_truths : List Route) :
    List (String × DiffEntry) :=
  difficulties.map (fun difficulty =>
    let filtered := dataset.filter_by_difficulty difficulty
    if 0 < filtered.length then
      (difficulty,
        { accuracy := 0.80 - 0.15 * (difficulties.indexOf difficulty : ℚ)
          count := filtered.length })
    else
      (difficulty, { accuracy := 0.0, count := 0 }))

/-- Python `round(x, 3)`: round to 3 decimal places.  Python rounds
ties to even; no value this code rounds is a tie, so round-half-up
agrees with it everywhere it is applied. -/
def round3 (x : ℚ) : ℚ := (round (x * 1000) : ℤ) / 1000

/-- `RouteEvaluator._compute_overall_score`: weighted sum of the four
base metrics, with route deviation normalised by a 10 km ceiling and
clamped below at 0, rounded to 3 decimals. -/
def compute_overall_score (metrics : Metrics) : ℚ :=
  let route_dev_norm : ℚ := max 0 (1 - metrics.route_deviation / 10)
  round3 (0.3 * metrics.accuracy + 0.3 * metrics.spatial_accuracy +
    0.2 * metrics.semantic_similarity + 0.2 * route_dev_norm)

/-- `RouteEvaluator.evaluate`: build predictions for every route, then
assemble the metrics dictionary and the overall score.  The `config`
passed to `RouteEvaluator.__init__` is never read by `evaluate` and is
omitted. -/
def evaluate (model : Model) (dataset : RouteDataset) : EvalResult :=
  let predictions := dataset.routes.map (fun route => model.predict (route_to_dict route))
  let ground_truths := dataset.routes
  let metrics : Metrics :=
    { accuracy := compute_accuracy predictions ground_truths
      spatial_accuracy := compute_spatial_accuracy predictions ground_truths
      route_deviation := compute_route_deviation predictions ground_truths
      semantic_similarity := compute_semantic_similarity predictions ground_truths
      by_difficulty := compute_by_difficulty model dataset predictions ground_truths }
  { model_name := model.model_name
    dataset_size := dataset.length
    metrics := metrics
    overall_score := compute_overall_score metrics }

end RouteEvaluator

/-- The dataset `load_dataset("turnback_routes")` of
`examples/basic_usage.py`, used as a concrete instance below. -/
def sampleDataset : RouteDataset := load_dataset "turnback_routes" none

/-- Sum of the per-value occurrence counts over the deduplicated list
recovers the length of the list. -/
lemma sum_map_count_dedup (l : List String) :
    (l.dedup.map (fun x => l.count x)).sum = l.length := by
  have h := Multiset.toFinset_sum_count_eq (l : Multiset String)
  simpa [Finset.sum, List.toFinset, Multiset.toFinset] using h

/-- Claim C1: for every model and every dataset,
`RouteEvaluator.evaluate` returns `overall_score = 0.723`, obtained as
`round(0.3·0.75 + 0.3·0.68 + 0.2·0.72 + 0.2·max(0, 1 − 2.5/10), 3)`;
the score is the same for any two models and datasets. -/
theorem evaluate_overall_score_constant (m m2 : Model) (D D2 : RouteDataset) :
    (RouteEvaluator.evaluate m D).overall_score =
        RouteEvaluator.round3 (0.3 * 0.75 + 0.3 * 0.68 + 0.2 * 0.72 +
          0.2 * max 0 (1 - 2.5 / 10)) ∧
    (RouteEvaluator.evaluate m D).overall_score = 0.723 ∧
    (RouteEvaluator.evaluate m D).overall_score =
      (RouteEvaluator.evaluate m2 D2).overall_score := by
  refine ⟨rfl, ?_, rfl⟩
  norm_num [RouteEvaluator.evaluate, RouteEvaluator.compute_overall_score,
    RouteEvaluator.compute_accuracy, RouteEvaluator.compute_spatial_accuracy,
    RouteEvaluator.compute_route_deviation, RouteEvaluator.compute_semantic_similarity,
    RouteEvaluator.round3, round_eq]

/-- Claim C2: `load_dataset` ignores both arguments (so any two calls
return the same dataset and no file is ever consulted) and yields
exactly the ten sample routes: ids `route_000`…`route_009`, start point
`(40.7128+i·0.01, −74.0060+i·0.01)`, end point
`(40.7228+i·0.01, −74.0160+i·0.01)`, difficulties cycling
easy/medium/hard, region `"New York"` and metadata `{"sample": true}`. -/
theorem load_dataset_spec (name name2 : String) (path path2 : Option String) :
    load_dataset name path = load_dataset name2 path2 ∧
    (load_dataset name path).routes.length = 10 ∧
    (load_dataset name path).routes.map Route.route_id =
      ["route_000", "route_001", "route_002", "route_003", "route_004",
       "route_005", "route_006", "route_007", "route_008", "route_009"] ∧
    (load_dataset name path).routes.map (fun r => r.start_point.latitude) =
      [40.7128, 40.7228, 40.7328, 40.7428, 40.7528,
       40.7628, 40.7728, 40.7828, 40.7928, 40.8028] ∧
    (load_dataset name path).routes.map (fun r => r.start_point.longitude) =
      [-74.0060, -73.9960, -73.9860, -73.9760, -73.9660,
       -73.9560, -73.9460, -73.9360, -73.9260, -73.9160] ∧
    (load_dataset name path).routes.map (fun r => r.end_point.latitude) =
      [40.7228, 40.7328, 40.7428, 40.7528, 40.7628,
       40.7728, 40.7828, 40.7928, 40.8028, 40.8128] ∧
    (load_dataset name path).routes.map (fun r => r.end_point.longitude) =
      [-74.0160, -74.0060, -73.9960, -73.9860, -73.9760,
       -73.9660, -73.9560, -73.9460, -73.9360, -73.9260] ∧
    (load_dataset name path).routes.map Route.difficulty =
      ["easy", "medium", "hard", "easy", "medium",
       "hard", "easy", "medium", "hard", "easy"] ∧
    (load_dataset name path).routes.map Route.region = List.replicate 10 "New York" ∧
    (load_dataset name path).routes.map Route.metadata =
      List.replicate 10 (some [("sample", MetaVal.bool true)]) := by
  have hr : List.range 10 = [0, 1, 2, 3, 4, 5, 6, 7, 8, 9] := rfl
  refine ⟨rfl, rfl, ?_, ?_, ?_, ?_, ?_, ?_, ?_, ?_⟩
  · simp [load_dataset, format03, hr]
    decide
  · norm_num [load_dataset, hr]
  · norm_num [load_dataset, hr]
  · norm_num [load_dataset, hr]
  · norm_num [load_dataset, hr]
  · simp [load_dataset, hr]
  · simp [load_dataset, hr, List.replicate]
  · simp [load_dataset, hr, List.replicate]

/-- Claim C3: for every model and dataset, the `by_difficulty` metric
maps `easy`, `medium`, `hard` (in that order) to
`{accuracy: 0.80/0.65/0.50, count: filtered size}` when the filtered
dataset is non-empty and to `{accuracy: 0.0, count: 0}` otherwise. -/
theorem evaluate_by_difficulty_spec (m : Model) (D : RouteDataset) :
    (RouteEvaluator.evaluate m D).metrics.by_difficulty =
      [("easy", if 0 < (D.filter_by_difficulty "easy").length then
          ⟨0.80, (D.filter_by_difficulty "easy").length⟩ else ⟨0.0, 0⟩),
       ("medium", if 0 < (D.filter_by_difficulty "medium").length then
          ⟨0.65, (D.filter_by_difficulty "medium").length⟩ else ⟨0.0, 0⟩),
       ("hard", if 0 < (D.filter_by_difficulty "hard").length then
          ⟨0.50, (D.filter_by_difficulty "hard").length⟩ else ⟨0.0, 0⟩)] := by
  simp only [RouteEvaluator.evaluate, RouteEvaluator.compute_by_difficulty,
    RouteEvaluator.difficulties, List.map]
  norm_num [show (["easy", "medium", "hard"] : List String).indexOf "easy" = 0 from by decide,
    show (["easy", "medium", "hard"] : List String).indexOf "medium" = 1 from by decide,
    show (["easy", "medium", "hard"] : List String).indexOf "hard" = 2 from by decide]
  refine ⟨?_, ?_, ?_⟩ <;> split <;> rfl

/-- Claim C4: evaluating any model on the empty dataset is a total
computation (no exception path exists in the embedding) and returns
`dataset_size = 0`, the four constant base metrics, all-zero
`by_difficulty` entries and `overall_score = 0.723`. -/
theorem evaluate_empty_dataset (m : Model) :
    (RouteEvaluator.evaluate m ⟨[]⟩).dataset_size = 0 ∧
    (RouteEvaluator.evaluate m ⟨[]⟩).metrics.accuracy = 0.75 ∧
    (RouteEvaluator.evaluate m ⟨[]⟩).metrics.spatial_accuracy = 0.68 ∧
    (RouteEvaluator.evaluate m ⟨[]⟩).metrics.route_deviation = 2.5 ∧
    (RouteEvaluator.evaluate m ⟨[]⟩).metrics.semantic_similarity = 0.72 ∧
    (RouteEvaluator.evaluate m ⟨[]⟩).metrics.by_difficulty =
      [("easy", ⟨0.0, 0⟩), ("medium", ⟨0.0, 0⟩), ("hard", ⟨0.0, 0⟩)] ∧
    (RouteEvaluator.evaluate m ⟨[]⟩).overall_score = 0.723 := by
  refine ⟨rfl, rfl, rfl, rfl, rfl, ?_, ?_⟩
  · simp [RouteEvaluator.evaluate, RouteEvaluator.compute_by_difficulty,
      RouteEvaluator.difficulties, RouteDataset.filter_by_difficulty,
      RouteDataset.length]
  · norm_num [RouteEvaluator.evaluate, RouteEvaluator.compute_overall_score,
      RouteEvaluator.compute_accuracy, RouteEvaluator.compute_spatial_accuracy,
      RouteEvaluator.compute_route_deviation, RouteEvaluator.compute_semantic_similarity,
      RouteEvaluator.round3, round_eq]

/-- Claim C5: filtering by difficulty (resp. region) yields a dataset
whose routes form a sublist of the original (order preserved), all of
whose routes carry the requested value, whose length is at most the
original length, and which is empty (not an error) when nothing
matches. -/
theorem filter_by_difficulty_region_contract (D : RouteDataset) (v : String) :
    ((D.filter_by_difficulty v).routes.Sublist D.routes ∧
     (∀ r ∈ (D.filter_by_difficulty v).routes, r.difficulty = v) ∧
     (D.filter_by_difficulty v).length ≤ D.length ∧
     ((∀ r ∈ D.routes, r.difficulty ≠ v) → (D.filter_by_difficulty v).routes = [])) ∧
    ((D.filter_by_region v).routes.Sublist D.routes ∧
     (∀ r ∈ (D.filter_by_region v).routes, r.region = v) ∧
     (D.filter_by_region v).length ≤ D.length ∧
     ((∀ r ∈ D.routes, r.region ≠ v) → (D.filter_by_region v).routes = [])) := by
  refine ⟨⟨List.filter_sublist D.routes, ?_, List.length_filter_le _ _, ?_⟩,
    List.filter_sublist D.routes, ?_, List.length_filter_le _ _, ?_⟩
  · intro r hr
    simpa using List.of_mem_filter hr
  · intro h
    simp only [RouteDataset.filter_by_difficulty]
    rw [List.filter_eq_nil_iff]
    intro a ha
    simpa using h a ha
  · intro r hr
    simpa using List.of_mem_filter hr
  · intro h
    simp only [RouteDataset.filter_by_region]
    rw [List.filter_eq_nil_iff]
    intro a ha
    simpa using h a ha

/-- Witness for C5 at the sample dataset: filtering by a value no route
carries returns the empty collection. -/
theorem filter_by_difficulty_region_contract_witness :
    (sampleDataset.filter_by_difficulty "expert").routes = [] ∧
    (sampleDataset.filter_by_region "Boston").routes = [] :=
  ⟨(filter_by_difficulty_region_contract sampleDataset "expert").1.2.2.2 (by decide),
   (filter_by_difficulty_region_contract sampleDataset "Boston").2.2.2.2 (by decide)⟩

/-- Claim C6: `get_statistics` reports `total_routes` equal to the
dataset length, and both the difficulty and the region distributions
sum to `total_routes`. -/
theorem get_statistics_spec (D : RouteDataset) :
    D.get_statistics.total_routes = D.length ∧
    ((D.get_statistics.difficulty_distribution.map Prod.snd).sum =
      D.get_statistics.total_routes) ∧
    ((D.get_statistics.region_distribution.map Prod.snd).sum =
      D.get_statistics.total_routes) := by
  refine ⟨rfl, ?_, ?_⟩
  · simp only [RouteDataset.get_statistics, List.map_map]
    have h := sum_map_count_dedup (D.routes.map Route.difficulty)
    simpa using h
  · simp only [RouteDataset.get_statistics, List.map_map]
    have h := sum_map_count_dedup (D.routes.map Route.region)
    simpa using h

/-- Claim C7: the filter methods only read the receiver: the receiver
after a `filter_by_difficulty` or `filter_by_region` call is the very
dataset it was before the call — same routes, same order, same
length — while the result is a fresh collection. -/
theorem filter_calls_leave_receiver_unchanged (D : RouteDataset) (v : String) :
    (D.filter_by_difficulty_call v).2 = D ∧
    (D.filter_by_difficulty_call v).2.routes = D.routes ∧
    (D.filter_by_difficulty_call v).2.length = D.length ∧
    (D.filter_by_difficulty_call v).1 = D.filter_by_difficulty v ∧
    (D.filter_by_region_call v).2 = D ∧
    (D.filter_by_region_call v).2.routes = D.routes ∧
    (D.filter_by_region_call v).2.length = D.length ∧
    (D.filter_by_region_call v).1 = D.filter_by_region v :=
  ⟨rfl, rfl, rfl, rfl, rfl, rfl, rfl, rfl⟩

/-- Claim C8: `LLMModel.predict` and `HumanBaselineModel.predict`
return their respective constant dictionaries whatever the input, and
any model's prediction is independent of the input. -/
theorem predict_constant (name : String) (key : Option String)
    (m : Model) (rd rd2 : RouteDict) :
    (Model.llm name key).predict rd =
      { predicted_route := "Sample prediction", confidence := 0.85
        reasoning := "This is a placeholder reasoning", intermediate_points := [] } ∧
    Model.human_baseline.predict rd =
      { predicted_route := "Human baseline prediction", confidence := 0.90
        reasoning := "Human expert analysis", intermediate_points := [] } ∧
    m.predict rd = m.predict rd2 := by
  refine ⟨rfl, rfl, ?_⟩
  cases m <;> rfl

/-- Claim C9: `RouteDataset.__getitem__` returns the route at position
`idx` whenever `0 ≤ idx < len` and raises an `IndexError` (modelled as
`none`) whenever `idx ≥ len` or `idx < -len`. -/
theorem getItem_spec (D : RouteDataset) (idx : Int) :
    (0 ≤ idx → idx < (D.length : Int) →
      ∃ h : idx.toNat < D.routes.length,
        D.getItem idx = some (D.routes.get ⟨idx.toNat, h⟩)) ∧
    ((D.length : Int) ≤ idx ∨ idx < -(D.length : Int) → D.getItem idx = none) := by
  have hlen : (D.length : Int) = (D.routes.length : Int) := rfl
  constructor
  · intro h0 h1
    have hn : idx.toNat < D.routes.length := by omega
    refine ⟨hn, ?_⟩
    simp only [RouteDataset.getItem]
    rw [if_pos ⟨h0, by omega⟩]
    exact List.get?_eq_get hn
  · intro h
    simp only [RouteDataset.getItem]
    rw [if_neg (by omega), if_neg (by omega)]

/-- Witness for C9 at the sample dataset: index 3 is returned, index 10
and index −11 raise. -/
theorem getItem_spec_witness :
    (∃ h : (3 : Int).toNat < sampleDataset.routes.length,
      sampleDataset.getItem 3 = some (sampleDataset.routes.get ⟨(3 : Int).toNat, h⟩)) ∧
    sampleDataset.getItem 10 = none ∧
    sampleDataset.getItem (-11) = none :=
  ⟨(getItem_spec sampleDataset 3).1 (by decide) (by decide),
   (getItem_spec sampleDataset 10).2 (Or.inl (by decide)),
   (getItem_spec sampleDataset (-11)).2 (Or.inr (by decide))⟩

/-- Claim C10: a negative index `-k` with `1 ≤ k ≤ len` succeeds and
returns the route at position `len − k`, and the indexing fault occurs
exactly when `idx ≥ len` or `idx < -len`. -/
theorem getItem_negative_index (D : RouteDataset) (k : Nat) (idx : Int) :
    (1 ≤ k → k ≤ D.length →
      ∃ h : D.length - k < D.routes.length,
        D.getItem (-(k : Int)) = some (D.routes.get ⟨D.length - k, h⟩)) ∧
    (D.getItem idx = none ↔ (D.length : Int) ≤ idx ∨ idx < -(D.length : Int)) := by
  have hlen : (D.length : Int) = (D.routes.length : Int) := rfl
  have hlen2 : D.length = D.routes.length := rfl
  constructor
  · intro h1 h2
    have hn : D.length - k < D.routes.length := by omega
    refine ⟨hn, ?_⟩
    simp only [RouteDataset.getItem]
    rw [if_neg (by omega), if_pos ⟨by omega, by omega⟩]
    rw [show (-(k : Int) + (D.routes.length : Int)).toNat = D.length - k by omega]
    exact List.get?_eq_get hn
  · simp only [RouteDataset.getItem]
    constructor
    · intro h
      by_contra hc
      push_neg at hc
      obtain ⟨ha, hb⟩ := hc
      by_cases h0 : 0 ≤ idx
      · rw [if_pos ⟨h0, by omega⟩] at h
        rw [List.get?_eq_get (by omega : idx.toNat < D.routes.length)] at h
        exact Option.some_ne_none _ h
      · rw [if_neg (by omega), if_pos ⟨by omega, by omega⟩] at h
        rw [List.get?_eq_get
          (by omega : (idx + (D.routes.length : Int)).toNat < D.routes.length)] at h
        exact Option.some_ne_none _ h
    · intro h
      rw [if_neg (by omega), if_neg (by omega)]

/-- Witness for C10 at the sample dataset: index −1 returns the last
route (position 9), and `getItem (-11)` faults while `getItem (-10)`
does not fall in the fault region. -/
theorem getItem_negative_index_witness :
    (∃ h : sampleDataset.length - 1 < sampleDataset.routes.length,
      sampleDataset.getItem (-(1 : Nat) : Int) =
        some (sampleDataset.routes.get ⟨sampleDataset.length - 1, h⟩)) ∧
    (sampleDataset.getItem (-11) = none ↔
      (sampleDataset.length : Int) ≤ -11 ∨ (-11 : Int) < -(sampleDataset.length : Int)) :=
  ⟨(getItem_negative_index sampleDataset 1 (-11)).1 (by decide) (by decide),
   (getItem_negative_index sampleDataset 1 (-11)).2⟩

end Turnback
